import Mathlib

/-!
# Verification of the TimelineWeb parsing / day-indexing core (src/app.js)

This file shallowly embeds the format-detection and normalization engine of
the repository's `src/app.js` into Lean 4 and proves or refutes the frozen
claims about it.

Modelling conventions:
* A parsed JSON document (the result of `JSON.parse`) is a `JVal`.
  JavaScript `undefined` (an absent field) is represented as `none` in
  `Option JVal`; JSON `null` is `JVal.null`.
* JavaScript numbers are modelled as exact rationals `ℚ`.  IEEE-754 rounding
  is abstracted away (the spec's numerical claims are stated "within
  floating-point tolerance"); the overflow of string-to-number conversion to
  `Infinity` is modelled by the cutoff `2 ^ 1024`.
* Timestamps (`Date` values) are integer milliseconds since the epoch `ℤ`;
  an invalid `Date` or a `null` in a date-typed variable is `none` in
  `Option ℤ`.  The host timezone is a fixed offset `tz` in minutes east of
  UTC, passed as an explicit parameter.
* Strings are `List Char`.
-/

set_option maxRecDepth 4000

attribute [local semireducible] Rat.add Rat.mul Rat.sub Rat.inv Rat.ofScientific

namespace TL

/-- A parsed JSON value, as produced by `JSON.parse`.  Object fields are an
association list; a later binding for the same key shadows an earlier one
(`JSON.parse` keeps the last duplicate key). -/
inductive JVal : Type
  | null : JVal
  | bool (b : Bool) : JVal
  | num (q : ℚ) : JVal
  | str (s : List Char) : JVal
  | arr (elems : List JVal) : JVal
  | obj (fields : List (List Char × JVal)) : JVal

/-- Lookup in a JSON object's field list, last binding wins. -/
def jsonGet : List (List Char × JVal) → List Char → Option JVal
  | [], _ => none
  | (k, v) :: rest, key =>
    match jsonGet rest key with
    | some r => some r
    | none => if k = key then some v else none

/-- `x.k` / `x?.k` member access: `some` when the field is present on an
object, `none` (JavaScript `undefined`) otherwise.  (Plain `.` access on
`null`/`undefined` would throw in JS; every access modelled here is on a
path the source guards, so `none`-propagation is a faithful embedding.) -/
def getField : JVal → List Char → Option JVal
  | .obj fs, k => jsonGet fs k
  | _, _ => none

/-- `x?.k` on a possibly-undefined value. -/
def optField (v : Option JVal) (k : List Char) : Option JVal :=
  v.bind (fun x => getField x k)

/-- JavaScript truthiness of a parsed JSON value (`NaN` cannot occur in a
`JSON.parse` result). -/
def truthy : JVal → Bool
  | .null => false
  | .bool b => b
  | .num q => decide (q ≠ 0)
  | .str s => decide (s ≠ [])
  | .arr _ => true
  | .obj _ => true

/-- Truthiness of a possibly-undefined value. -/
def truthyU : Option JVal → Bool
  | none => false
  | some v => truthy v

/-- Value-level `a || b` on possibly-undefined values. -/
def jsOr (a b : Option JVal) : Option JVal :=
  if truthyU a then a else b

/-- Is the value `null` or `undefined` (the `??` / `!= null` test). -/
def isNullish : Option JVal → Bool
  | none => true
  | some .null => true
  | _ => false

/-- Nullish coalescing `a ?? b`. -/
def jsCoalesce (a b : Option JVal) : Option JVal :=
  if isNullish a then b else a

/-- ASCII decimal digit test. -/
def isDigitCh (c : Char) : Bool := decide ('0' ≤ c) && decide (c ≤ '9')

/-- Digit value of an ASCII digit. -/
def digitVal (c : Char) : ℕ := c.toNat - '0'.toNat

/-- Value of a digit string in a given radix. -/
def digitsToNat (radix : ℕ) (ds : List Char) : ℕ :=
  ds.foldl (fun a c => radix * a + digitVal c) 0

/-- The whitespace class used both by the `\s` regex class and by the
`Number()` string trimming (ASCII whitespace plus the common Unicode space
characters). -/
def isJsSpace (c : Char) : Bool :=
  c = ' ' || c = '\t' || c = '\n' || c = '\r' ||
  c.toNat = 11 || c.toNat = 12 || c.toNat = 160 ||
  c.toNat = 0xfeff || c.toNat = 0x2028 || c.toNat = 0x2029

/-- Hexadecimal digit test. -/
def isHexDigit (c : Char) : Bool :=
  isDigitCh c || (decide ('a' ≤ c) && decide (c ≤ 'f')) ||
    (decide ('A' ≤ c) && decide (c ≤ 'F'))

/-- Hexadecimal digit value. -/
def hexVal (c : Char) : ℕ :=
  if isDigitCh c then digitVal c
  else if decide ('a' ≤ c) && decide (c ≤ 'f') then c.toNat - 'a'.toNat + 10
  else c.toNat - 'A'.toNat + 10

/-- Value of a hex digit string. -/
def hexDigitsToNat (ds : List Char) : ℕ :=
  ds.foldl (fun a c => 16 * a + hexVal c) 0

/-- `10 ^ e` as a rational, for a possibly negative exponent. -/
def qpow10 (e : ℤ) : ℚ := (10 : ℚ) ^ e

/-- Parse the optional exponent suffix of a JS numeric literal
(`e`/`E`, optional sign, digits); `some 0` when absent, `none` when
malformed.  The whole remainder must be consumed. -/
def parseExpPart : List Char → Option ℤ
  | [] => some 0
  | c :: rest =>
    if c = 'e' || c = 'E' then
      match rest with
      | '+' :: ds =>
        if decide (ds ≠ []) && ds.all isDigitCh then some (digitsToNat 10 ds : ℤ) else none
      | '-' :: ds =>
        if decide (ds ≠ []) && ds.all isDigitCh then some (-(digitsToNat 10 ds : ℤ)) else none
      | ds =>
        if decide (ds ≠ []) && ds.all isDigitCh then some (digitsToNat 10 ds : ℤ) else none
    else none

/-- Parse an unsigned JS decimal literal (`digits`, `digits.digits`,
`digits.`, `.digits`, each with an optional exponent), consuming the whole
string. -/
def parseUnsignedDec (s : List Char) : Option ℚ :=
  let ip := s.takeWhile isDigitCh
  let rest1 := s.dropWhile isDigitCh
  match rest1 with
  | '.' :: rest2 =>
    let fp := rest2.takeWhile isDigitCh
    let rest3 := rest2.dropWhile isDigitCh
    if ip = [] && fp = [] then none
    else
      (parseExpPart rest3).map (fun e =>
        ((digitsToNat 10 ip : ℚ) + (digitsToNat 10 fp : ℚ) / (10 : ℚ) ^ fp.length) * qpow10 e)
  | _ =>
    if ip = [] then none
    else (parseExpPart rest1).map (fun e => (digitsToNat 10 ip : ℚ) * qpow10 e)

/-- The characters of the literal `Infinity`. -/
def infinityChars : List Char := ['I', 'n', 'f', 'i', 'n', 'i', 't', 'y']

/-- An unsigned decimal literal or `Infinity`, mapped to a finite rational;
`Infinity` and values whose magnitude would overflow a double to infinity
(`≥ 2^1024`) are collapsed to `none`, like `NaN` — every use in the source
is guarded by `Number.isFinite`, which rejects all three. -/
def parseUnsignedDecFin (s : List Char) : Option ℚ :=
  if s = infinityChars then none
  else match parseUnsignedDec s with
    | some q => if (((2 ^ 1024 : ℕ) : ℤ) : ℚ) ≤ |q| then none else some q
    | none => none

/-- A signed JS decimal literal (or `Infinity`), finite results only. -/
def parseSignedDec : List Char → Option ℚ
  | '+' :: r => parseUnsignedDecFin r
  | '-' :: r => (parseUnsignedDecFin r).map (fun q => -q)
  | r => parseUnsignedDecFin r

/-- Parse a radix-prefixed literal body (after `0x` / `0o` / `0b`). -/
def parseRadix (radix : ℕ) (ds : List Char) : Option ℚ :=
  if decide (ds ≠ []) && ds.all (fun c =>
      if radix = 16 then isHexDigit c
      else isDigitCh c && decide (digitVal c < radix)) then
    some (if radix = 16 then (hexDigitsToNat ds : ℚ) else (digitsToNat radix ds : ℚ))
  else none

/-- JS `Number(...)` applied to a string (`StringToNumber`): trim
whitespace, empty string is `0`, otherwise a signed decimal literal,
`Infinity`, or a `0x`/`0o`/`0b` radix literal; `none` models a non-finite
result (`NaN` or `±Infinity`). -/
def jsStringToNumber (s : List Char) : Option ℚ :=
  let t := ((s.dropWhile isJsSpace).reverse.dropWhile isJsSpace).reverse
  match t with
  | [] => some 0
  | '0' :: x :: rest =>
    if x = 'x' || x = 'X' then parseRadix 16 rest
    else if x = 'o' || x = 'O' then parseRadix 8 rest
    else if x = 'b' || x = 'B' then parseRadix 2 rest
    else parseSignedDec t
  | _ => parseSignedDec t

/-- `Number(String(x))`, the coercion applied to the single element of a
one-element array by `ToPrimitive`. -/
def jsNumberArr : JVal → Option ℚ
  | .null => some 0
  | .num q => some q
  | .str s => jsStringToNumber s
  | .arr [] => some 0
  | .arr [x] => jsNumberArr x
  | _ => none

/-- JS `Number(v)` (`ToNumber`) on a parsed JSON value; `none` models a
non-finite result. -/
def jsNumber : JVal → Option ℚ
  | .null => some 0
  | .bool b => some (if b then 1 else 0)
  | .num q => some q
  | .str s => jsStringToNumber s
  | .arr [] => some 0
  | .arr [x] => jsNumberArr x
  | .arr _ => none
  | .obj _ => none

/-- JS `Number(v)` where `v` may be `undefined` (`Number(undefined) = NaN`). -/
def jsNumberU : Option JVal → Option ℚ
  | none => none
  | some v => jsNumber v

/-- `latE7ToNum` (src/app.js:100-104): coerce with `Number`, reject
non-finite values, multiply by `1e-7`. -/
def latE7ToNum (v : Option JVal) : Option ℚ :=
  match jsNumberU v with
  | none => none
  | some n => some (n * (1 / 10000000))

/- ### The coordinate-text decoder `parseLatLngString` (src/app.js:79-98)

The character class in the source is literally `[¬∞\s]` — the intended
degree sign `°` (U+00B0, UTF-8 `C2 B0`) was corrupted by a MacRoman
round-trip into `¬` (U+00AC) and `∞` (U+221E) — so the embedding strips
exactly those two characters plus whitespace. -/

/-- `s.replace(/[¬∞\s]/g, "")`: remove `¬`, `∞` and whitespace. -/
def stripCleaned (s : List Char) : List Char :=
  s.filter (fun c => !(c = '¬' || c = '∞' || isJsSpace c))

/-- All splits of a maximal digit run into a nonempty prefix and the rest,
longest prefix first — the backtracking alternatives of a greedy `\d+`. -/
def prefixesDesc (ds : List Char) : List (List Char × List Char) :=
  (List.range ds.length).map (fun k => (ds.take (ds.length - k), ds.drop (ds.length - k)))

/-- Backtracking alternatives of `(?:\.\d+)?` at a position, in priority
order: fraction present with a greedy-first digit run, then absent. -/
def fracAlts (cs : List Char) : List (List Char × List Char) :=
  (match cs with
   | '.' :: rest =>
     let run := rest.takeWhile isDigitCh
     let rest2 := rest.dropWhile isDigitCh
     (prefixesDesc run).map (fun p => ('.' :: p.1, p.2 ++ rest2))
   | _ => []) ++ [([], cs)]

/-- Backtracking alternatives of `\d+(?:\.\d+)?` at a position, in priority
order (matched characters, remaining characters). -/
def coreNumAlts (cs : List Char) : List (List Char × List Char) :=
  let run := cs.takeWhile isDigitCh
  let rest := cs.dropWhile isDigitCh
  (prefixesDesc run).flatMap (fun p =>
    (fracAlts (p.2 ++ rest)).map (fun f => (p.1 ++ f.1, f.2)))

/-- Backtracking alternatives of `-?\d+(?:\.\d+)?` at a position. -/
def numAlts : List Char → List (List Char × List Char)
  | '-' :: rest => (coreNumAlts rest).map (fun p => ('-' :: p.1, p.2))
  | cs => coreNumAlts cs

/-- Greedy (first-priority) match of `-?\d+(?:\.\d+)?` anchored at the
start of `cs` — nothing follows the second capture group, so it never
backtracks. -/
def numGreedyAt (cs : List Char) : Option (List Char) :=
  match numAlts cs with
  | [] => none
  | p :: _ => some p.1

/-- Resolve `.*(-?\d+(?:\.\d+)?)`: the greedy gap yields the match of the
second group at the **latest** position where one exists. -/
def tryGroupTwo : List Char → Option (List Char)
  | [] => none
  | c :: rest =>
    match tryGroupTwo rest with
    | some m => some m
    | none => numGreedyAt (c :: rest)

/-- Match `(-?\d+(?:\.\d+)?).*(-?\d+(?:\.\d+)?)` anchored at the start of
`cs`, with backtracking over the first group's alternatives. -/
def matchTwoAt (cs : List Char) : Option (List Char × List Char) :=
  (numAlts cs).findSome? (fun p => (tryGroupTwo p.2).map (fun m2 => (p.1, m2)))

/-- `cleaned.match(/(-?\d+(?:\.\d+)?).*(-?\d+(?:\.\d+)?)/)`: the two
captured groups at the leftmost position admitting a match. -/
def regexTwoNums : List Char → Option (List Char × List Char)
  | [] => none
  | c :: rest =>
    match matchTwoAt (c :: rest) with
    | some m => some m
    | none => regexTwoNums rest

/-- `parseLatLngString` (src/app.js:79-98).  The argument may be absent /
`null` / a non-string (all rejected by `if(!s || typeof s !== "string")`,
which also rejects the empty string). -/
def parseLatLngString (v : Option JVal) : Option (ℚ × ℚ) :=
  match v with
  | some (.str s) =>
    if s = [] then none
    else
      let cleaned := stripCleaned s
      let parts := List.splitOn ',' cleaned
      let viaComma : Option (ℚ × ℚ) :=
        match parts with
        | p0 :: p1 :: _ =>
          match jsStringToNumber p0, jsStringToNumber p1 with
          | some lat, some lng => some (lat, lng)
          | _, _ => none
        | _ => none
      match viaComma with
      | some r => some r
      | none =>
        match regexTwoNums cleaned with
        | some (m1, m2) =>
          match jsStringToNumber m1, jsStringToNumber m2 with
          | some lat, some lng => some (lat, lng)
          | _, _ => none
        | none => none
  | _ => none

/- ### Calendar and timestamp model.

`Date` values are integer milliseconds since the Unix epoch.  The host
timezone is a fixed offset `tz` in minutes east of UTC.  Civil-date
conversion uses the standard proleptic-Gregorian day-number algorithm. -/

/-- Gregorian leap-year test. -/
def isLeapYear (y : ℤ) : Bool :=
  (y % 4 == 0 && y % 100 != 0) || y % 400 == 0

/-- Days in a month of the proleptic Gregorian calendar. -/
def daysInMonth (y m : ℤ) : ℤ :=
  if m = 2 then (if isLeapYear y then 29 else 28)
  else if m = 4 || m = 6 || m = 9 || m = 11 then 30
  else 31

/-- Day number (days since 1970-01-01) of a civil date; the standard
era-based formula.  Linear in `d`, so a `Date` constructor called with an
out-of-range day (e.g. `getDate()+1` past the end of a month) normalizes
exactly as JavaScript does. -/
def daysFromCivil (y m d : ℤ) : ℤ :=
  let yy := if m ≤ 2 then y - 1 else y
  let era := yy / 400
  let yoe := yy - era * 400
  let mp := if m > 2 then m - 3 else m + 9
  let doy := (153 * mp + 2) / 5 + d - 1
  let doe := yoe * 365 + yoe / 4 - yoe / 100 + doy
  era * 146097 + doe - 719468

/-- Civil date `(year, month 1-12, day 1-31)` of a day number; inverse of
`daysFromCivil`, standard era-based formula. -/
def civilFromDays (z0 : ℤ) : ℤ × ℤ × ℤ :=
  let z := z0 + 719468
  let era := z / 146097
  let doe := z - era * 146097
  let yoe := (doe - doe / 1460 + doe / 36524 - doe / 146096) / 365
  let doy := doe - (365 * yoe + yoe / 4 - yoe / 100)
  let mp := (5 * doy + 2) / 153
  let d := doy - (153 * mp + 2) / 5 + 1
  let m := if mp < 10 then mp + 3 else mp - 9
  (yoe + era * 400 + (if m ≤ 2 then 1 else 0), m, d)

/-- The `Date` range limit: `±8.64e15` ms (`TimeClip`). -/
def maxDateMs : ℤ := 8640000000000000

/-- `new Date(n)` for a finite number `n`: truncate toward zero, reject
values outside the representable range. -/
def dateFromNum (q : ℚ) : Option ℤ :=
  if (maxDateMs : ℚ) < |q| then none
  else some (if 0 ≤ q then ⌊q⌋ else -⌊-q⌋)

/-- Take exactly `n` decimal digits from the front of a string. -/
def takeDigitsN (n : ℕ) (s : List Char) : Option (ℕ × List Char) :=
  let pre := s.take n
  if pre.length = n && pre.all isDigitCh then some (digitsToNat 10 pre, s.drop n)
  else none

/-- Year of an ISO-8601 date string: four digits, or a sign with six
digits (`-000000` is invalid). -/
def parseYearPart : List Char → Option (ℤ × List Char)
  | '+' :: rest => (takeDigitsN 6 rest).map (fun p => ((p.1 : ℤ), p.2))
  | '-' :: rest =>
    (takeDigitsN 6 rest).bind (fun p => if p.1 = 0 then none else some (-(p.1 : ℤ), p.2))
  | s => (takeDigitsN 4 s).map (fun p => ((p.1 : ℤ), p.2))

/-- Optional `-MM` and `-DD` parts of an ISO date (defaulting to month 1,
day 1), with range validation. -/
def parseMonthDayPart (y : ℤ) : List Char → Option (ℤ × ℤ × List Char)
  | '-' :: r2 =>
    (takeDigitsN 2 r2).bind (fun pm =>
      let mm : ℤ := pm.1
      if mm < 1 || 12 < mm then none
      else
        match pm.2 with
        | '-' :: r4 =>
          (takeDigitsN 2 r4).bind (fun pd =>
            let dd : ℤ := pd.1
            if dd < 1 || daysInMonth y mm < dd then none
            else some (mm, dd, pd.2))
        | r3 => some (mm, 1, r3))
  | rest => some (1, 1, rest)

/-- Millisecond value of a fractional-seconds digit run (first three
digits, zero-padded). -/
def fracMs (run : List Char) : ℤ :=
  (digitsToNat 10 ((run ++ ['0', '0', '0']).take 3) : ℤ)

/-- Trailing timezone designator of an ISO date-time: absent, `Z`, or
`±HH:mm` / `±HHmm`; must consume the whole remainder.  Returns the offset
in minutes east, `none` inside meaning "no designator". -/
def parseOffsetPart : List Char → Option (Option ℤ)
  | [] => some none
  | ['Z'] => some (some 0)
  | c :: rest =>
    if c = '+' || c = '-' then
      let sgn : ℤ := if c = '-' then -1 else 1
      let digs : Option (ℤ × ℤ) :=
        match rest with
        | [h1, h2, ':', m1, m2] =>
          if [h1, h2, m1, m2].all isDigitCh then
            some ((digitsToNat 10 [h1, h2] : ℤ), (digitsToNat 10 [m1, m2] : ℤ))
          else none
        | [h1, h2, m1, m2] =>
          if [h1, h2, m1, m2].all isDigitCh then
            some ((digitsToNat 10 [h1, h2] : ℤ), (digitsToNat 10 [m1, m2] : ℤ))
          else none
        | _ => none
      digs.bind (fun hm =>
        if hm.1 ≤ 23 && hm.2 ≤ 59 then some (some (sgn * (hm.1 * 60 + hm.2))) else none)
    else none

/-- Time-of-day part `HH:mm[:ss[.fff]]` plus offset designator; returns
(milliseconds within the day, explicit offset in minutes or `none`). -/
def parseTimePart : List Char → Option (ℤ × Option ℤ)
  | s =>
    (takeDigitsN 2 s).bind (fun ph =>
      match ph.2 with
      | ':' :: r2 =>
        (takeDigitsN 2 r2).bind (fun pmin =>
          let afterMin := pmin.2
          let secFrac : Option (ℤ × ℤ × List Char) :=
            match afterMin with
            | ':' :: r4 =>
              (takeDigitsN 2 r4).bind (fun ps =>
                match ps.2 with
                | '.' :: r6 =>
                  let run := r6.takeWhile isDigitCh
                  let rest7 := r6.dropWhile isDigitCh
                  if run = [] || 9 < run.length then none
                  else some ((ps.1 : ℤ), fracMs run, rest7)
                | r6 => some ((ps.1 : ℤ), 0, r6))
            | r4 => some (0, 0, r4)
          secFrac.bind (fun sfr =>
            let hh : ℤ := ph.1
            let mi : ℤ := pmin.1
            let ss := sfr.1
            let fr := sfr.2.1
            if 24 < hh || 59 < mi || 59 < ss then none
            else if hh = 24 && (mi ≠ 0 || ss ≠ 0 || fr ≠ 0) then none
            else
              (parseOffsetPart sfr.2.2).map (fun off =>
                (hh * 3600000 + mi * 60000 + ss * 1000 + fr, off))))
      | _ => none)

/-- `new Date(isoString)`: the ES Date Time String Format (the only string
format with interoperable semantics).  A date-only string is UTC; a
date-time without offset designator is local time. -/
def parseISODate (tz : ℤ) (s : List Char) : Option ℤ :=
  (parseYearPart s).bind (fun py =>
    (parseMonthDayPart py.1 py.2).bind (fun pmd =>
      let days := daysFromCivil py.1 pmd.1 pmd.2.1
      match pmd.2.2 with
      | [] => dateFromNum ((days * 86400000 : ℤ) : ℚ)
      | 'T' :: r =>
        (parseTimePart r).bind (fun tp =>
          let offMin : ℤ := match tp.2 with | some o => o | none => tz
          dateFromNum (((days * 86400000 + tp.1 - offMin * 60000 : ℤ) : ℚ)))
      | _ => none))

/-- `parseDateDual` (src/app.js:107-120): try the ISO candidate when it is
a string, else interpret the second candidate (string or number) as epoch
milliseconds. -/
def parseDateDual (tz : ℤ) (iso ms : Option JVal) : Option ℤ :=
  match (match iso with
         | some (.str s) => parseISODate tz s
         | _ => none) with
  | some t => some t
  | none =>
    match ms with
    | some (.str s) => (jsStringToNumber s).bind dateFromNum
    | some (.num q) => dateFromNum q
    | _ => none

/-- Local day number of a timestamp (days since epoch, local timezone).
`Math.floor` division; all divisors in this file are positive, for which
Euclidean division `/` on `ℤ` coincides with floor division. -/
def dayNumOfMs (tz t : ℤ) : ℤ := (t + tz * 60000) / 86400000

/-- Local civil date of a timestamp (`getFullYear`/`getMonth`+1/`getDate`). -/
def localCivil (tz t : ℤ) : ℤ × ℤ × ℤ := civilFromDays (dayNumOfMs tz t)

/-- `dayKey` (src/app.js:52-58): pack the local civil date as
`y*10000 + m*100 + d`. -/
def dayKeyMs (tz t : ℤ) : ℤ :=
  let c := localCivil tz t
  c.1 * 10000 + c.2.1 * 100 + c.2.2

/-- `startOfDay` (src/app.js:59-61): `new Date(getFullYear, getMonth,
getDate)`, modelled as truncation to the enclosing local midnight (the
legacy two-digit-year constructor quirk for years 0-99 is not modelled). -/
def startOfDay (tz t : ℤ) : ℤ :=
  dayNumOfMs tz t * 86400000 - tz * 60000

/-- Local midnight of a civil date: `new Date(y, m-1, d)` for a 1-based
month (same modelling note as `startOfDay`). -/
def mkLocalDate (tz y m1 d : ℤ) : ℤ :=
  daysFromCivil y m1 d * 86400000 - tz * 60000

/-- Unpack a day key back into a `Date`, as in `rebuildDays`
(src/app.js:399-404). -/
def keyToDate (tz k : ℤ) : ℤ :=
  mkLocalDate tz (k / 10000) (Int.tmod k 10000 / 100) (Int.tmod k 100)

/- ### Canonical Event records and the three format parsers.

Display-only string fields of the source's `Item` (`title`, `subtitle`,
`emoji`, `activityType`) are not referenced by any verified property and
are omitted from the embedding. -/

/-- The `kind` tag of a canonical record. -/
inductive ItemKind : Type
  | activity : ItemKind
  | visit : ItemKind
  | rawpoint : ItemKind
deriving DecidableEq

/-- The detected-format tag of `ParsedData`. -/
inductive DetectedFormat : Type
  | timelineObjects : DetectedFormat
  | semanticSegments : DetectedFormat
  | recordsLocations : DetectedFormat
  | unknown : DetectedFormat
deriving DecidableEq

/-- A canonical Event record (`Item` in src/app.js).  `start`/`endT` hold
`Date|null` values (`endT` is the source's `end` field, renamed because
`end` is a Lean keyword). -/
structure Item where
  kind : ItemKind
  start : Option ℤ
  endT : Option ℤ
  point : Option (ℚ × ℚ)
  path : List (ℚ × ℚ)
  distanceMeters : Option ℚ
deriving DecidableEq

/-- `seg.duration || {}` for either record shape of the legacy format. -/
def durationOf (v : JVal) : Option JVal :=
  jsOr (getField v ("duration".toList)) (some (.obj []))

/-- The resolved start timestamp of a legacy record: dual decode of
`duration.startTimestamp` / `duration.startTimestampMs`. -/
def durStart (tz : ℤ) (v : JVal) : Option ℤ :=
  parseDateDual tz (optField (durationOf v) ("startTimestamp".toList))
    (optField (durationOf v) ("startTimestampMs".toList))

/-- The resolved end timestamp of a legacy record. -/
def durEnd (tz : ℤ) (v : JVal) : Option ℤ :=
  parseDateDual tz (optField (durationOf v) ("endTimestamp".toList))
    (optField (durationOf v) ("endTimestampMs".toList))

/-- The items contributed by the `activitySegment` shape of one
`timelineObjects` element (src/app.js:151-206). -/
def activityItems (tz : ℤ) (obj : JVal) : List Item :=
  match getField obj ("activitySegment".toList) with
  | none => []
  | some seg =>
    if truthy obj && truthy seg then
      let start := durStart tz seg
      let endv := durEnd tz seg
      let distRaw := getField seg ("distance".toList)
      let distanceMeters := if isNullish distRaw then none else jsNumberU distRaw
      let path0 :=
        match optField (getField seg ("waypointPath".toList)) ("waypoints".toList) with
        | some (.arr wps) => wps.filterMap (fun p =>
            match latE7ToNum (optField (some p) ("latE7".toList)),
                  latE7ToNum (optField (some p) ("lngE7".toList)) with
            | some la, some ln => some (la, ln)
            | _, _ => none)
        | _ => []
      let sLoc := getField seg ("startLocation".toList)
      let eLoc := getField seg ("endLocation".toList)
      let path :=
        if path0 = [] then
          (match latE7ToNum (optField sLoc ("latitudeE7".toList)),
                 latE7ToNum (optField sLoc ("longitudeE7".toList)) with
           | some la, some ln => [(la, ln)]
           | _, _ => []) ++
          (match latE7ToNum (optField eLoc ("latitudeE7".toList)),
                 latE7ToNum (optField eLoc ("longitudeE7".toList)) with
           | some la, some ln => [(la, ln)]
           | _, _ => [])
        else path0
      match start with
      | some t =>
        [{ kind := .activity, start := some t, endT := endv, point := none,
           path := path, distanceMeters := distanceMeters }]
      | none => []
    else []

/-- The items contributed by the `placeVisit` shape of one
`timelineObjects` element (src/app.js:208-235). -/
def visitItems (tz : ℤ) (obj : JVal) : List Item :=
  match getField obj ("placeVisit".toList) with
  | none => []
  | some v =>
    if truthy obj && truthy v then
      let start := durStart tz v
      let endv := durEnd tz v
      let loc := jsOr (getField v ("location".toList)) (some (.obj []))
      let point :=
        match latE7ToNum (optField loc ("latitudeE7".toList)),
              latE7ToNum (optField loc ("longitudeE7".toList)) with
        | some la, some ln => some (la, ln)
        | _, _ => none
      match start with
      | some t =>
        [{ kind := .visit, start := some t, endT := endv, point := point,
           path := [], distanceMeters := none }]
      | none => []
    else []

/-- One iteration of the `timelineObjects` loop: the two record shapes are
processed independently. -/
def oneTimelineObject (tz : ℤ) (obj : JVal) : List Item :=
  activityItems tz obj ++ visitItems tz obj

/-- `parseTimelineObjects` (src/app.js:146-239). -/
def parseTimelineObjects (tz : ℤ) (objs : List JVal) : List Item :=
  objs.flatMap (oneTimelineObject tz)

/-- The resolved start of a `semanticSegments` element: `startTime` must
be a string holding a valid date (src/app.js:246-250). -/
def semanticStart (tz : ℤ) (seg : JVal) : Option ℤ :=
  match optField (some seg) ("startTime".toList) with
  | some (.str st) => parseISODate tz st
  | _ => none

/-- The resolved end of a `semanticSegments` element. -/
def semanticEnd (tz : ℤ) (seg : JVal) : Option ℤ :=
  match optField (some seg) ("endTime".toList) with
  | some (.str st) => parseISODate tz st
  | _ => none

/-- `seg.activity` of a `semanticSegments` element. -/
def activityField (seg : JVal) : Option JVal :=
  optField (some seg) ("activity".toList)

/-- `parseLatLngString(seg.activity?.start?.latLng)`. -/
def semanticActStartPt (seg : JVal) : Option (ℚ × ℚ) :=
  parseLatLngString (optField (optField (activityField seg) ("start".toList)) ("latLng".toList))

/-- `parseLatLngString(seg.activity?.end?.latLng)`. -/
def semanticActEndPt (seg : JVal) : Option (ℚ × ℚ) :=
  parseLatLngString (optField (optField (activityField seg) ("end".toList)) ("latLng".toList))

/-- The path decoded from the per-point `timelinePath` sequence
(src/app.js:307-314). -/
def semanticTimelinePath (seg : JVal) : List (ℚ × ℚ) :=
  match optField (some seg) ("timelinePath".toList) with
  | some (.arr ps) => ps.filterMap (fun p => parseLatLngString (optField (some p) ("point".toList)))
  | _ => []

/-- One iteration of the `semanticSegments` loop (src/app.js:245-338):
skip the element unless `startTime` is a string parsing to a valid date,
then take the `visit` branch, else the `activity` branch, else nothing. -/
def oneSemanticSegment (tz : ℤ) (seg : JVal) : List Item :=
  match semanticStart tz seg with
  | none => []
  | some t =>
    let endv := semanticEnd tz seg
    if truthyU (optField (some seg) ("visit".toList)) then
      let top := jsOr (optField (optField (some seg) ("visit".toList)) ("topCandidate".toList))
        (some (.obj []))
      let placeLoc := jsOr (jsOr (optField top ("placeLocation".toList))
          (optField top ("placeLocationLatLng".toList)))
        (optField (optField top ("placeLocation".toList)) ("latLng".toList))
      let latLngStr : Option JVal :=
        match optField (optField top ("placeLocation".toList)) ("latLng".toList) with
        | some (.str u) => some (.str u)
        | _ =>
          match optField top ("placeLocation".toList) with
          | some (.str u) => some (.str u)
          | _ =>
            match placeLoc with
            | some (.str u) => some (.str u)
            | _ => some .null
      [{ kind := .visit, start := some t, endT := endv,
         point := parseLatLngString latLngStr, path := [], distanceMeters := none }]
    else if truthyU (activityField seg) then
      let distRaw := optField (activityField seg) ("distanceMeters".toList)
      let dist := if isNullish distRaw then none else jsNumberU distRaw
      let path0 := semanticTimelinePath seg
      let path :=
        if path0 = [] then
          (match semanticActStartPt seg with | some p => [p] | none => []) ++
          (match semanticActEndPt seg with | some p => [p] | none => [])
        else path0
      [{ kind := .activity, start := some t, endT := endv, point := none,
         path := path, distanceMeters := dist }]
    else []

/-- `parseSemanticSegments` (src/app.js:242-340). -/
def parseSemanticSegments (tz : ℤ) (segs : List JVal) : List Item :=
  segs.flatMap (oneSemanticSegment tz)

/-- The resolved timestamp of a raw location record:
`loc?.timestampMs ?? loc?.timestampMS ?? loc?.timestamp ?? null` fed into
the epoch-milliseconds branch of the dual decoder. -/
def recordTimestamp (tz : ℤ) (loc : JVal) : Option ℤ :=
  parseDateDual tz none (jsCoalesce (jsCoalesce (jsCoalesce
    (optField (some loc) ("timestampMs".toList))
    (optField (some loc) ("timestampMS".toList)))
    (optField (some loc) ("timestamp".toList))) (some .null))

/-- One iteration of the `locations` loop (src/app.js:347-368). -/
def oneRecordLocation (tz : ℤ) (loc : JVal) : List Item :=
  match recordTimestamp tz loc with
  | none => []
  | some t =>
    match latE7ToNum (optField (some loc) ("latitudeE7".toList)),
          latE7ToNum (optField (some loc) ("longitudeE7".toList)) with
    | some la, some ln =>
      [{ kind := .rawpoint, start := some t, endT := none, point := some (la, ln),
         path := [], distanceMeters := none }]
    | _, _ => []

/-- `parseRecordsLocations` (src/app.js:343-370). -/
def parseRecordsLocations (tz : ℤ) (locs : List JVal) : List Item :=
  locs.flatMap (oneRecordLocation tz)

/-- The result record of the dispatcher. -/
structure ParsedData where
  items : List Item
  detectedFormat : DetectedFormat
deriving DecidableEq

/-- The element list of an array-valued field, when present. -/
def arrField (j : JVal) (k : List Char) : Option (List JVal) :=
  match getField j k with
  | some (.arr xs) => some xs
  | _ => none

/-- `parseAnyGoogleTimeline` (src/app.js:123-143): dispatch on the first
array-valued key among `timelineObjects`, `semanticSegments`, `locations`
(each check is `json && Array.isArray(json.key)`). -/
def parseAnyGoogleTimeline (tz : ℤ) (json : JVal) : ParsedData :=
  match (if truthy json then arrField json ("timelineObjects".toList) else none) with
  | some objs => ⟨parseTimelineObjects tz objs, .timelineObjects⟩
  | none =>
    match (if truthy json then arrField json ("semanticSegments".toList) else none) with
    | some segs => ⟨parseSemanticSegments tz segs, .semanticSegments⟩
    | none =>
      match (if truthy json then arrField json ("locations".toList) else none) with
      | some locs => ⟨parseRecordsLocations tz locs, .recordsLocations⟩
      | none => ⟨[], .unknown⟩

/- ### Session state, day index and navigator. -/

/-- The core session state (the parsing/indexing fields of the source's
`state` object; the map/rendering fields are external collaborators). -/
structure AppState where
  items : List Item
  sortedDays : List ℤ
  dayKeySet : Finset ℤ
  selectedDay : Option ℤ
  detectedFormat : DetectedFormat
  monthAnchor : Option ℤ
deriving DecidableEq

/-- `dayKey(it.start)` for an item; `it.start` is a valid `Date` whenever
this is reached (claim C2), the default covers the impossible branch. -/
def itemDayKey (tz : ℤ) (it : Item) : ℤ := dayKeyMs tz (it.start.getD 0)

/-- `it.start.getTime()` for an item (valid by construction). -/
def itemStartMs (it : Item) : ℤ := it.start.getD 0

/-- The ordering of the `(a,b) => a.start - b.start` comparator.
JavaScript `Array#sort` is a stable comparison sort; it is modelled by
insertion sort, the canonical stable sort (output is uniquely determined
by the comparator plus stability). -/
def itemLe (a b : Item) : Prop := itemStartMs a ≤ itemStartMs b

instance : DecidableRel itemLe := fun a b => Int.decLe _ _

instance : IsTotal Item itemLe := ⟨fun a b => Int.le_total _ _⟩

instance : IsTrans Item itemLe := ⟨fun _ _ _ hab hbc => le_trans hab hbc⟩

/-- The sorted distinct day keys of an item list: insert every `dayKey`
into a set, extract the distinct values and sort ascending
(src/app.js:393-398). -/
def sortedDayKeys (tz : ℤ) (items : List Item) : List ℤ :=
  List.insertionSort (fun a b => a ≤ b) ((items.map (itemDayKey tz)).dedup)

/-- `rebuildDays` (src/app.js:392-414), minus the DOM updates: rebuild the
key set and the sorted day list, reset month anchor and selection to the
earliest day (or null). -/
def rebuildDays (tz : ℤ) (s : AppState) : AppState :=
  let keySet := (s.items.map (itemDayKey tz)).toFinset
  let sorted := (sortedDayKeys tz s.items).map (keyToDate tz)
  { s with dayKeySet := keySet, sortedDays := sorted,
           monthAnchor := sorted.head?, selectedDay := sorted.head? }

/-- `currentDayIndex` (src/app.js:417-421): index of the day whose key
matches the selected day, `-1` when absent. -/
def currentDayIndex (tz : ℤ) (s : AppState) : ℤ :=
  match s.selectedDay with
  | none => -1
  | some t =>
    match s.sortedDays.findIdx? (fun d => dayKeyMs tz d == dayKeyMs tz t) with
    | some i => (i : ℤ)
    | none => -1

/-- Enabled state of the prev button (negation of the `disabled`
assignment in `updateNavButtons`, src/app.js:423-428). -/
def hasPrevB (tz : ℤ) (s : AppState) : Bool :=
  decide (0 < s.sortedDays.length) && decide (0 < currentDayIndex tz s)

/-- Enabled state of the next button. -/
def hasNextB (tz : ℤ) (s : AppState) : Bool :=
  decide (0 < s.sortedDays.length) && decide (0 ≤ currentDayIndex tz s) &&
    decide (currentDayIndex tz s < (s.sortedDays.length : ℤ) - 1)

/-- `goPrev` (src/app.js:430-436), minus the render call. -/
def goPrev (tz : ℤ) (s : AppState) : AppState :=
  let idx := currentDayIndex tz s
  if 0 < idx then { s with selectedDay := s.sortedDays.get? (idx - 1).toNat } else s

/-- `goNext` (src/app.js:437-443), minus the render call. -/
def goNext (tz : ℤ) (s : AppState) : AppState :=
  let idx := currentDayIndex tz s
  if 0 ≤ idx ∧ idx < (s.sortedDays.length : ℤ) - 1 then
    { s with selectedDay := s.sortedDays.get? (idx + 1).toNat }
  else s

/-- `itemsForSelectedDay` (src/app.js:446-452): filter the items whose
start lies in the selected local day, sorted ascending by start.  The end
bound `new Date(y, m, d+1)` built from the components of `s` is one civil
day after the midnight `s`. -/
def itemsForSelectedDay (tz : ℤ) (s : AppState) : List Item :=
  match s.selectedDay with
  | none => []
  | some sel =>
    let sMs := startOfDay tz sel
    let eMs := startOfDay tz sMs + 86400000
    List.insertionSort itemLe (s.items.filter (fun it =>
      decide (sMs ≤ itemStartMs it) && decide (itemStartMs it < eMs)))

/-- The user-visible outcome of a load (the toast shown by
`onFileSelected`). -/
inductive Outcome : Type
  | parseError (detail : List Char) : Outcome
  | noData : Outcome
  | loaded : Outcome
deriving DecidableEq

/-- The state/outcome transition of `onFileSelected` (src/app.js:697-728)
after the file has been read: `JSON.parse` is modelled by the
`Except`-valued argument (error = syntax error with its raw detail).
On success: dispatch, keep only items with a valid start, sort by start,
rebuild the day index, report `noData` when no items survived. -/
def loadParsed (tz : ℤ) (r : Except (List Char) JVal) (s : AppState) : AppState × Outcome :=
  match r with
  | .error e => (s, .parseError e)
  | .ok json =>
    let parsed := parseAnyGoogleTimeline tz json
    let kept := List.insertionSort itemLe (parsed.items.filter (fun it => it.start.isSome))
    let s2 := rebuildDays tz { s with items := kept, detectedFormat := parsed.detectedFormat }
    (s2, if kept.length = 0 then .noData else .loaded)

/- ### Spec-side reference definitions. -/

/-- Key present with an array value — the spec's structural format test
(no truthiness side condition). -/
def hasArrayKey (j : JVal) (k : List Char) : Bool := (arrField j k).isSome

/-- Is the value a JSON object. -/
def isObjV : JVal → Bool
  | .obj _ => true
  | _ => false

/-- The first float-shaped token (`-?\d+(?:\.\d+)?`, maximal) of a string,
scanning left to right, with the remainder after it. -/
def findFirstFloat : List Char → Option (List Char × List Char)
  | [] => none
  | c :: rest =>
    match numAlts (c :: rest) with
    | p :: _ => some p
    | [] => findFirstFloat rest

/-- Modelled from the spec (§4.1 `decodeCoordinateText`): strip degree
glyphs (`°`) and whitespace, split on comma parsing both halves; if that
fails, extract the **first two** floating-point-looking substrings of the
cleaned text.  This is the reading the claim asserts; the shipped code
differs from it. -/
def decodeCoordinateTextSpec (v : Option JVal) : Option (ℚ × ℚ) :=
  match v with
  | some (.str s) =>
    if s = [] then none
    else
      let cleaned := s.filter (fun c => !(c = '°' || isJsSpace c))
      let viaComma : Option (ℚ × ℚ) :=
        match List.splitOn ',' cleaned with
        | p0 :: p1 :: _ =>
          match jsStringToNumber p0, jsStringToNumber p1 with
          | some lat, some lng => some (lat, lng)
          | _, _ => none
        | _ => none
      match viaComma with
      | some r => some r
      | none =>
        match findFirstFloat cleaned with
        | some (m1, rest) =>
          match findFirstFloat rest with
          | some (m2, _) =>
            match jsStringToNumber m1, jsStringToNumber m2 with
            | some lat, some lng => some (lat, lng)
            | _, _ => none
          | none => none
        | none => none
  | _ => none

/- ### Claim C6: the coordinate-text decoder. -/

/-- C6 counterexample: at the spec's own example `"35.1234567°, 139.1234567°"`
(a real degree sign, U+00B0) the code returns longitude `7`, not
`139.1234567`: the source's character class strips `¬`/`∞` (a mojibake of
`°`), so the comma halves fail to parse, and the regex fallback's greedy
gap captures the final digit as the second number.  The spec-modelled
decoder disagrees with the code at this input. -/
theorem claim6_decoder_counterexample :
    parseLatLngString (some (.str ("35.1234567°, 139.1234567°".toList)))
      = some ((35.1234567 : ℚ), (7 : ℚ)) ∧
    decodeCoordinateTextSpec (some (.str ("35.1234567°, 139.1234567°".toList)))
      = some ((35.1234567 : ℚ), (139.1234567 : ℚ)) ∧
    (7 : ℚ) ≠ (139.1234567 : ℚ) :=
  ⟨by decide, by decide, by decide⟩

/-- C6 (amended): `parseLatLngString` strips `¬` (U+00AC), `∞` (U+221E)
— the shipped mojibake of `°` — and whitespace, then splits on comma
parsing both halves; when that fails, the regex fallback pairs the first
float with the number starting at the last matchable position.  Hence the
mojibake-suffixed form decodes exactly, the degree-sign form decodes to
`(35.1234567, 7)`, `"35.1,139.1"` decodes exactly, and
`"not a coordinate"` returns null. -/
theorem claim6_decoder_behavior :
    parseLatLngString (some (.str ("35.1234567¬∞, 139.1234567¬∞".toList)))
      = some ((35.1234567 : ℚ), (139.1234567 : ℚ)) ∧
    parseLatLngString (some (.str ("35.1234567°, 139.1234567°".toList)))
      = some ((35.1234567 : ℚ), (7 : ℚ)) ∧
    parseLatLngString (some (.str ("35.1,139.1".toList)))
      = some ((35.1 : ℚ), (139.1 : ℚ)) ∧
    parseLatLngString (some (.str ("not a coordinate".toList))) = none :=
  ⟨by decide, by decide, by decide, by decide⟩

/- ### Claim C7: the fixed-point coordinate decoder. -/

/-- C7 counterexample: a raw JSON `null` does not yield null — JavaScript
`Number(null)` is `0`, which is finite, so `latE7ToNum` returns `0`. -/
theorem claim7_null_counterexample :
    latE7ToNum (some JVal.null) = some 0 ∧ latE7ToNum (some JVal.null) ≠ none :=
  ⟨by decide, by decide⟩

/-- C7 (amended): whenever `Number` coercion of the raw value is finite
the result is that value divided by `10^7` (exactly, in the rational
model), and `latE7ToNum` returns null exactly when the coercion is not
finite — which holds for an absent field, but **not** for a JSON `null`
(or other falsy coercible values), which coerce to `0`; the fixed-point
pair `(351234567, 1391234567)` decodes to `(35.1234567, 139.1234567)`. -/
theorem claim7_fixed_point_decode (v : Option JVal) :
    (∀ q : ℚ, jsNumberU v = some q → latE7ToNum v = some (q / 10000000)) ∧
    (jsNumberU v = none → latE7ToNum v = none) ∧
    latE7ToNum none = none ∧
    latE7ToNum (some JVal.null) = some 0 ∧
    latE7ToNum (some (.num 351234567)) = some ((35.1234567 : ℚ)) ∧
    latE7ToNum (some (.num 1391234567)) = some ((139.1234567 : ℚ)) := by
  refine ⟨?_, ?_, by decide, by decide, by decide, by decide⟩
  · intro q h
    unfold latE7ToNum
    rw [h]
    dsimp only
    rw [mul_one_div]
  · intro h
    unfold latE7ToNum
    rw [h]

/-- Witness for C7 at a concrete numeric-string input. -/
theorem claim7_fixed_point_decode_witness :
    latE7ToNum (some (.str ("42".toList))) = some ((42 : ℚ) / 10000000) :=
  (claim7_fixed_point_decode (some (.str ("42".toList)))).1 42 (by decide)

/- ### Claim C8: the semanticSegments activity path fallback. -/

/-- A `semanticSegments` element whose `timelinePath` decodes to exactly
one point while both `activity.start.latLng` and `activity.end.latLng`
decode. -/
def segOnePointPath : JVal := .obj [
  ("startTime".toList, .str ("2023-05-01T10:00:00Z".toList)),
  ("activity".toList, .obj [
     ("start".toList, .obj [("latLng".toList, .str ("1,2".toList))]),
     ("end".toList, .obj [("latLng".toList, .str ("3,4".toList))])]),
  ("timelinePath".toList, .arr [.obj [("point".toList, .str ("5,6".toList))]])]

/-- The same element without a `timelinePath`. -/
def segNoPath : JVal := .obj [
  ("startTime".toList, .str ("2023-05-01T10:00:00Z".toList)),
  ("activity".toList, .obj [
     ("start".toList, .obj [("latLng".toList, .str ("1,2".toList))]),
     ("end".toList, .obj [("latLng".toList, .str ("3,4".toList))])])]

/-- C8 counterexample: the fallback fires only when the decoded path is
**empty** (`path.length === 0`), not when it has fewer than 2 points: with
a one-point `timelinePath` and both start/end coordinates available, the
produced Event keeps the 1-point path instead of the synthesized 2-point
one. -/
theorem claim8_path_fallback_counterexample :
    (parseSemanticSegments 540 [segOnePointPath]).map (fun it => it.path)
      = [[((5 : ℚ), (6 : ℚ))]] ∧
    semanticActStartPt segOnePointPath = some (1, 2) ∧
    semanticActEndPt segOnePointPath = some (3, 4) ∧
    ([((5 : ℚ), (6 : ℚ))] : List (ℚ × ℚ)).length < 2 :=
  ⟨by decide, by decide, by decide, by decide⟩

/-- C8 (amended): in the activity branch the synthesized path replaces the
`timelinePath`-derived one exactly when the latter is **empty**, and it is
built by appending the decoded start point and end point individually
(each only when available); a nonempty decoded path — even a single point
— is kept as is. -/
theorem claim8_path_fallback (tz : ℤ) (seg : JVal) (t : ℤ)
    (hs : semanticStart tz seg = some t)
    (hv : truthyU (optField (some seg) ("visit".toList)) = false)
    (ha : truthyU (activityField seg) = true) :
    (semanticTimelinePath seg = [] →
      (oneSemanticSegment tz seg).map (fun it => it.path) =
        [(match semanticActStartPt seg with | some p => [p] | none => []) ++
         (match semanticActEndPt seg with | some p => [p] | none => [])]) ∧
    (semanticTimelinePath seg ≠ [] →
      (oneSemanticSegment tz seg).map (fun it => it.path) = [semanticTimelinePath seg]) := by
  unfold oneSemanticSegment
  rw [hs]
  simp only [hv, ha, Bool.false_eq_true, if_false, if_true]
  constructor
  · intro hp
    simp [hp]
  · intro hp
    simp [hp]

/-- Witness for C8: with no `timelinePath` at all, the 2-point start/end
path is synthesized. -/
theorem claim8_path_fallback_witness :
    (oneSemanticSegment 540 segNoPath).map (fun it => it.path)
      = [[((1 : ℚ), (2 : ℚ)), ((3 : ℚ), (4 : ℚ))]] := by
  have h := (claim8_path_fallback 540 segNoPath 1682935200000
    (by decide) (by decide) (by decide)).1 (by decide)
  rw [h]
  decide

/- ### Claim C1: dispatcher priority. -/

/-- The `json &&` truthiness guard in the dispatcher is redundant: only
objects can carry fields, and objects are always truthy. -/
theorem guard_arrField (j : JVal) (k : List Char) :
    (if truthy j then arrField j k else none) = arrField j k := by
  cases j <;> simp [truthy, arrField, getField]

/-- C1: the dispatcher returns the tag of the first key (in the order
`timelineObjects`, `semanticSegments`, `locations`) present with an array
value — extra keys never matter since the check is structural — and an
unrecognized document yields the `unknown` tag with an empty item list. -/
theorem claim1_dispatch_priority (tz : ℤ) (j : JVal) :
    ((parseAnyGoogleTimeline tz j).detectedFormat =
      if hasArrayKey j ("timelineObjects".toList) then .timelineObjects
      else if hasArrayKey j ("semanticSegments".toList) then .semanticSegments
      else if hasArrayKey j ("locations".toList) then .recordsLocations
      else .unknown) ∧
    ((parseAnyGoogleTimeline tz j).detectedFormat = .unknown →
      (parseAnyGoogleTimeline tz j).items = []) := by
  unfold parseAnyGoogleTimeline hasArrayKey
  rw [guard_arrField, guard_arrField, guard_arrField]
  rcases h1 : arrField j ("timelineObjects".toList) with _ | xs
  · rcases h2 : arrField j ("semanticSegments".toList) with _ | ys
    · rcases h3 : arrField j ("locations".toList) with _ | zs
      · simp [h1, h2, h3]
      · simp [h1, h2, h3]
    · simp [h1, h2]
  · simp [h1]

/-- Witness for C1: a document with only an unrelated key is unrecognized
and yields no items. -/
theorem claim1_dispatch_priority_witness :
    (parseAnyGoogleTimeline 540 (JVal.obj [("foo".toList, .arr [])])).items = [] :=
  (claim1_dispatch_priority 540 (JVal.obj [("foo".toList, .arr [])])).2 (by decide)

/- ### Claim C2: every surviving Event has a valid start. -/

/-- Items from the `activitySegment` shape always carry a decoded start. -/
theorem start_isSome_activityItems (tz : ℤ) (obj : JVal) (it : Item)
    (h : it ∈ activityItems tz obj) : it.start.isSome = true := by
  unfold activityItems at h
  split at h
  · simp at h
  · split at h
    · dsimp only at h
      split at h
      · simp at h
        subst h
        rfl
      · simp at h
    · simp at h

/-- Items from the `placeVisit` shape always carry a decoded start. -/
theorem start_isSome_visitItems (tz : ℤ) (obj : JVal) (it : Item)
    (h : it ∈ visitItems tz obj) : it.start.isSome = true := by
  unfold visitItems at h
  split at h
  · simp at h
  · split at h
    · dsimp only at h
      split at h
      · simp at h
        subst h
        rfl
      · simp at h
    · simp at h

/-- Items from a `semanticSegments` element always carry a decoded start. -/
theorem start_isSome_oneSemanticSegment (tz : ℤ) (seg : JVal) (it : Item)
    (h : it ∈ oneSemanticSegment tz seg) : it.start.isSome = true := by
  unfold oneSemanticSegment at h
  split at h
  · simp at h
  · dsimp only at h
    split at h
    · simp at h
      subst h
      rfl
    · split at h
      · simp at h
        subst h
        rfl
      · simp at h

/-- Items from a raw location record always carry a decoded start. -/
theorem start_isSome_oneRecordLocation (tz : ℤ) (loc : JVal) (it : Item)
    (h : it ∈ oneRecordLocation tz loc) : it.start.isSome = true := by
  unfold oneRecordLocation at h
  split at h
  · simp at h
  · split at h
    · simp at h
      subst h
      rfl
    · simp at h

/-- C2: every Event produced by the dispatcher (hence by any of the three
format parsers) has a valid start; each parser processes its records
independently (one list element at a time, a failing record contributing
nothing), and a record whose start cannot be resolved is dropped. -/
theorem claim2_valid_start (tz : ℤ) :
    (∀ (j : JVal) (it : Item),
      it ∈ (parseAnyGoogleTimeline tz j).items → it.start.isSome = true) ∧
    (∀ (x : JVal) (rest : List JVal),
      parseTimelineObjects tz (x :: rest) =
        oneTimelineObject tz x ++ parseTimelineObjects tz rest) ∧
    (∀ (x : JVal) (rest : List JVal),
      parseSemanticSegments tz (x :: rest) =
        oneSemanticSegment tz x ++ parseSemanticSegments tz rest) ∧
    (∀ (x : JVal) (rest : List JVal),
      parseRecordsLocations tz (x :: rest) =
        oneRecordLocation tz x ++ parseRecordsLocations tz rest) ∧
    (∀ seg : JVal, semanticStart tz seg = none → oneSemanticSegment tz seg = []) ∧
    (∀ loc : JVal, recordTimestamp tz loc = none → oneRecordLocation tz loc = []) := by
  refine ⟨?_, ?_, ?_, ?_, ?_, ?_⟩
  · intro j it h
    unfold parseAnyGoogleTimeline at h
    split at h
    · dsimp only at h
      unfold parseTimelineObjects at h
      rw [List.mem_flatMap] at h
      obtain ⟨x, _, hx⟩ := h
      unfold oneTimelineObject at hx
      rcases List.mem_append.mp hx with hx | hx
      · exact start_isSome_activityItems tz x it hx
      · exact start_isSome_visitItems tz x it hx
    · split at h
      · dsimp only at h
        unfold parseSemanticSegments at h
        rw [List.mem_flatMap] at h
        obtain ⟨x, _, hx⟩ := h
        exact start_isSome_oneSemanticSegment tz x it hx
      · split at h
        · dsimp only at h
          unfold parseRecordsLocations at h
          rw [List.mem_flatMap] at h
          obtain ⟨x, _, hx⟩ := h
          exact start_isSome_oneRecordLocation tz x it hx
        · simp at h
  · intro x rest
    simp [parseTimelineObjects]
  · intro x rest
    simp [parseSemanticSegments]
  · intro x rest
    simp [parseRecordsLocations]
  · intro seg h
    unfold oneSemanticSegment
    rw [h]
  · intro loc h
    unfold oneRecordLocation
    rw [h]

/-- A well-formed raw location record. -/
def locGood : JVal := .obj [
  ("timestampMs".toList, .str ("1000".toList)),
  ("latitudeE7".toList, .num 351234567),
  ("longitudeE7".toList, .num 1391234567)]

/-- A document holding one good record and one record with no timestamp. -/
def docMixed : JVal := .obj [("locations".toList,
  .arr [locGood, .obj [("latitudeE7".toList, .num 1)]])]

/-- The Event the good record decodes to. -/
def itemGood : Item :=
  ⟨.rawpoint, some 1000, none, some ((35.1234567 : ℚ), (139.1234567 : ℚ)), [], none⟩

/-- Witness for C2 on a concrete mixed document (the bad record is
dropped, the surviving Event has a valid start). -/
theorem claim2_valid_start_witness : itemGood.start.isSome = true :=
  (claim2_valid_start 540).1 docMixed itemGood (by decide)

/- ### Claim C3: day-index determinism. -/

/-- An Event on local day 1970-01-01 (UTC+9). -/
def itemA : Item := ⟨.rawpoint, some 0, none, none, [], none⟩

/-- An Event on local day 1970-01-03 (UTC+9). -/
def itemB : Item := ⟨.rawpoint, some 172800000, none, none, [], none⟩

/-- An unsorted two-day session. -/
def stTwoDays : AppState := ⟨[itemB, itemA], [], ∅, none, .recordsLocations, none⟩

/-- C3: the day-index builder yields exactly as many entries as there are
distinct local day keys, strictly ascending and duplicate-free, it is
invariant under permutation of the Event list, and it resets the selected
day to the head (earliest) entry — `none` when the Event list is empty. -/
theorem claim3_day_index (tz : ℤ) (s : AppState) (D : ℕ)
    (hD : ((s.items.map (itemDayKey tz)).dedup).length = D) :
    (sortedDayKeys tz s.items).length = D ∧
    List.Sorted (fun a b => a < b) (sortedDayKeys tz s.items) ∧
    (sortedDayKeys tz s.items).Nodup ∧
    (rebuildDays tz s).sortedDays = (sortedDayKeys tz s.items).map (keyToDate tz) ∧
    (∀ items2 : List Item, items2.Perm s.items →
      sortedDayKeys tz items2 = sortedDayKeys tz s.items) ∧
    (rebuildDays tz s).selectedDay = (rebuildDays tz s).sortedDays.head? ∧
    (s.items = [] → (rebuildDays tz s).selectedDay = none) := by
  have hnd : (sortedDayKeys tz s.items).Nodup :=
    ((List.perm_insertionSort _ _).nodup_iff).mpr (List.nodup_dedup _)
  have hsle : List.Sorted (fun a b : ℤ => a ≤ b) (sortedDayKeys tz s.items) :=
    List.sorted_insertionSort _ _
  refine ⟨?_, ?_, hnd, rfl, ?_, rfl, ?_⟩
  · rw [sortedDayKeys, (List.perm_insertionSort _ _).length_eq]
    exact hD
  · exact (List.Pairwise.and hsle hnd).imp (fun h => lt_of_le_of_ne h.1 h.2)
  · intro l2 hp
    refine List.eq_of_perm_of_sorted ?_ (List.sorted_insertionSort _ _) hsle
    exact (List.perm_insertionSort _ _).trans
      (((hp.map (itemDayKey tz)).dedup).trans (List.perm_insertionSort _ _).symm)
  · intro h
    simp [rebuildDays, sortedDayKeys, h]

/-- Witness for C3 on a concrete unsorted two-day session. -/
theorem claim3_day_index_witness : (sortedDayKeys 540 stTwoDays.items).length = 2 :=
  (claim3_day_index 540 stTwoDays 2 (by decide)).1

/- ### Claim C4: navigator boundary behavior. -/

/-- The current index is `-1` or a valid position of the day list. -/
theorem currentDayIndex_bounds (tz : ℤ) (s : AppState) :
    -1 ≤ currentDayIndex tz s ∧ currentDayIndex tz s < (s.sortedDays.length : ℤ) := by
  unfold currentDayIndex
  rcases s.selectedDay with _ | t
  · dsimp only
    omega
  · dsimp only
    rcases hf : s.sortedDays.findIdx? (fun d => dayKeyMs tz d == dayKeyMs tz t) with _ | i
    · dsimp only
      omega
    · dsimp only
      have hi : i < s.sortedDays.length :=
        (List.findIdx?_eq_some_iff_findIdx_eq.mp hf).1
      constructor
      · omega
      · exact_mod_cast hi

/-- C4: `goPrev` is a no-op at index 0, `goNext` is a no-op at the last
index, and with a day list of size 1 both buttons are disabled and both
moves are no-ops. -/
theorem claim4_navigator_boundaries (tz : ℤ) (s : AppState) :
    (currentDayIndex tz s = 0 → goPrev tz s = s) ∧
    (currentDayIndex tz s = (s.sortedDays.length : ℤ) - 1 → goNext tz s = s) ∧
    (s.sortedDays.length = 1 →
      hasPrevB tz s = false ∧ hasNextB tz s = false ∧
      goPrev tz s = s ∧ goNext tz s = s) := by
  refine ⟨?_, ?_, ?_⟩
  · intro h
    unfold goPrev
    dsimp only
    rw [h]
    simp
  · intro h
    unfold goNext
    dsimp only
    rw [h]
    rw [if_neg]
    rintro ⟨_, hc⟩
    exact lt_irrefl _ hc
  · intro h1
    have hb := currentDayIndex_bounds tz s
    rw [h1] at hb
    refine ⟨?_, ?_, ?_, ?_⟩
    · unfold hasPrevB
      rw [h1]
      have hnp : ¬ (0 < currentDayIndex tz s) := by omega
      simp [hnp]
    · unfold hasNextB
      rw [h1]
      rcases lt_or_ge (currentDayIndex tz s) 0 with hc | hc
      · have hn : ¬ (0 ≤ currentDayIndex tz s) := by omega
        simp [hn]
      · have hn : ¬ (currentDayIndex tz s < ((1 : ℕ) : ℤ) - 1) := by omega
        simp [hn]
    · unfold goPrev
      dsimp only
      rw [if_neg]
      omega
    · unfold goNext
      dsimp only
      rw [if_neg]
      rintro ⟨hc1, hc2⟩
      omega

/-- A one-day session with that day selected. -/
def stOneDay : AppState :=
  ⟨[itemA], [keyToDate 540 19700101], ∅, some (keyToDate 540 19700101),
   .recordsLocations, none⟩

/-- Witness for C4 on a concrete one-day session. -/
theorem claim4_navigator_boundaries_witness : hasPrevB 540 stOneDay = false :=
  ((claim4_navigator_boundaries 540 stOneDay).2.2 (by decide)).1

/- ### Claim C5: behavior on malformed input. -/

/-- The empty initial session state. -/
def initialState : AppState := ⟨[], [], ∅, none, .unknown, none⟩

/-- A session state as left by an earlier successful load. -/
def prevLoaded : AppState :=
  ⟨[itemGood], [keyToDate 540 19700101], {19700101}, some (keyToDate 540 19700101),
   .recordsLocations, some (keyToDate 540 19700101)⟩

/-- C5 counterexample: a syntactically valid **non-object** document (the
JSON text `5`) is not treated as a parse failure: the load proceeds as an
unrecognized format with the `noData` outcome, and the previously loaded
state is wiped (items cleared, selection reset) — contradicting "leaves
the previously loaded state completely untouched". -/
theorem claim5_nonobject_counterexample :
    (loadParsed 540 (.ok (.num 5)) prevLoaded).1.items = [] ∧
    prevLoaded.items ≠ [] ∧
    (loadParsed 540 (.ok (.num 5)) prevLoaded).1.selectedDay = none ∧
    prevLoaded.selectedDay ≠ none ∧
    (loadParsed 540 (.ok (.num 5)) prevLoaded).2 = .noData :=
  ⟨by decide, by decide, by decide, by decide, by decide⟩

/-- C5 (amended): only input text that fails JSON parsing yields the
parse-failed outcome with its raw error detail, zero Events and the
previous state untouched; a document that parses to a non-object value is
instead handled as an unrecognized format — zero Events, `noData` outcome,
and the session state rebuilt (previous data cleared). -/
theorem claim5_parse_failure_behavior (tz : ℤ) (e : List Char) (s : AppState) (j : JVal) :
    loadParsed tz (.error e) s = (s, .parseError e) ∧
    (isObjV j = false →
      (loadParsed tz (.ok j) s).1.items = [] ∧
      (loadParsed tz (.ok j) s).1.detectedFormat = .unknown ∧
      (loadParsed tz (.ok j) s).2 = .noData ∧
      (loadParsed tz (.ok j) s).1.selectedDay = none) := by
  constructor
  · rfl
  · intro h
    have hp : parseAnyGoogleTimeline tz j = ⟨[], DetectedFormat.unknown⟩ := by
      cases j with
      | obj fs => simp [isObjV] at h
      | null => rfl
      | bool b => simp [parseAnyGoogleTimeline, arrField, getField]
      | num q => simp [parseAnyGoogleTimeline, arrField, getField]
      | str u => simp [parseAnyGoogleTimeline, arrField, getField]
      | arr xs => rfl
    refine ⟨?_, ?_, ?_, ?_⟩
    · simp [loadParsed, hp, rebuildDays]
    · simp [loadParsed, hp, rebuildDays]
    · simp [loadParsed, hp, rebuildDays]
    · simp [loadParsed, hp, rebuildDays, sortedDayKeys]

/-- Witness for C5 at the concrete non-object document `5`. -/
theorem claim5_parse_failure_behavior_witness :
    (loadParsed 540 (Except.ok (.num 5)) prevLoaded).2 = .noData :=
  ((claim5_parse_failure_behavior 540 [] prevLoaded (.num 5)).2 (by decide)).2.2.1

/- ### Claim C9: day filtering and ordering of the event list. -/

/-- `startOfDay` is idempotent: a local midnight truncates to itself. -/
theorem startOfDay_idem (tz t : ℤ) : startOfDay tz (startOfDay tz t) = startOfDay tz t := by
  unfold startOfDay dayNumOfMs
  omega

/-- C9: for a session with a selected day, `itemsForSelectedDay` returns
exactly the Events whose start lies in `[startOfDay(day),
startOfDay(day)+1day)` (as a permutation of that filter), sorted ascending
by start; and the session's full event list after any successful load is
sorted ascending by start. -/
theorem claim9_events_for_day (tz : ℤ) (s : AppState) (sel : ℤ)
    (hsel : s.selectedDay = some sel) :
    (itemsForSelectedDay tz s).Perm (s.items.filter (fun it =>
      decide (startOfDay tz sel ≤ itemStartMs it) &&
      decide (itemStartMs it < startOfDay tz sel + 86400000))) ∧
    List.Sorted itemLe (itemsForSelectedDay tz s) ∧
    (∀ (j : JVal) (s0 : AppState),
      List.Sorted itemLe ((loadParsed tz (.ok j) s0).1.items)) := by
  refine ⟨?_, ?_, ?_⟩
  · unfold itemsForSelectedDay
    rw [hsel]
    dsimp only
    rw [startOfDay_idem]
    exact List.perm_insertionSort _ _
  · unfold itemsForSelectedDay
    rw [hsel]
    dsimp only
    exact List.sorted_insertionSort _ _
  · intro j s0
    unfold loadParsed rebuildDays
    dsimp only
    exact List.sorted_insertionSort _ _

/-- A one-day session with a selected day, for the C9 witness. -/
def stSelected : AppState :=
  ⟨[itemA], [keyToDate 540 19700101], ∅, some (keyToDate 540 19700101),
   .recordsLocations, none⟩

/-- Witness for C9 on a concrete selected-day session. -/
theorem claim9_events_for_day_witness :
    List.Sorted itemLe (itemsForSelectedDay 540 stSelected) :=
  (claim9_events_for_day 540 stSelected (keyToDate 540 19700101) rfl).2.1

/- ### Claim C10: a valid load replaces the whole session. -/

/-- C10: loading any successfully parsed document yields a state that is a
function of the document alone (identical to loading it over the empty
initial state): items, format tag, day-key set, sorted day list and
selection are all rebuilt from the new document, with the selection
becoming `none` when it yields no Events. -/
theorem claim10_load_replaces (tz : ℤ) (j : JVal) (s : AppState) :
    (loadParsed tz (.ok j) s).1 = (loadParsed tz (.ok j) initialState).1 ∧
    (loadParsed tz (.ok j) s).1.detectedFormat = (parseAnyGoogleTimeline tz j).detectedFormat ∧
    (loadParsed tz (.ok j) s).1.items =
      List.insertionSort itemLe
        ((parseAnyGoogleTimeline tz j).items.filter (fun it => it.start.isSome)) ∧
    (loadParsed tz (.ok j) s).1.dayKeySet =
      ((loadParsed tz (.ok j) s).1.items.map (itemDayKey tz)).toFinset ∧
    (loadParsed tz (.ok j) s).1.sortedDays =
      (sortedDayKeys tz ((loadParsed tz (.ok j) s).1.items)).map (keyToDate tz) ∧
    (loadParsed tz (.ok j) s).1.selectedDay = (loadParsed tz (.ok j) s).1.sortedDays.head? ∧
    ((loadParsed tz (.ok j) s).1.items = [] →
      (loadParsed tz (.ok j) s).1.selectedDay = none) := by
  refine ⟨?_, rfl, rfl, rfl, rfl, rfl, ?_⟩
  · cases s
    rfl
  · intro h
    change ((sortedDayKeys tz ((loadParsed tz (.ok j) s).1.items)).map (keyToDate tz)).head? = none
    rw [h]
    rfl

/-- Witness for C10: an empty object yields no Events and a null
selection. -/
theorem claim10_load_replaces_witness :
    (loadParsed 540 (.ok (JVal.obj [])) initialState).1.selectedDay = none :=
  (claim10_load_replaces 540 (JVal.obj []) initialState).2.2.2.2.2.2 (by decide)

end TL
